import Mathlib

/-!
Shallow embedding of the client-side collaborative editing core of the
shared text editor / whiteboard application, together with theorems that
settle the frozen claims about it.

The text-editor model follows src/static/editor.js: an optimistic live
replica, a server-confirmed shadow replica, and a FIFO queue of pending
local operations.  JavaScript numbers used as text positions are modelled
as Int (all arithmetic in the source is integer arithmetic); JS objects
and Maps keyed by user id / property name / flag are modelled as
insertion-ordered association lists, which matches JS iteration order.
A JS TypeError (property access on undefined) is recorded in a `crashed`
flag.  structuredClone is the identity on immutable values.

The whiteboard model follows the scene-graph handlers of whiteboard.js,
and the geometry helper follows linesIntersect of html_utilities.js with
exact rational arithmetic.
-/

namespace Collab

/-! ## Association lists (JS objects / Maps, insertion ordered) -/

/-- Lookup in an insertion-ordered association list. -/
def alist_get {α β : Type} [DecidableEq α] (m : List (α × β)) (k : α) : Option β :=
  match m with
  | [] => none
  | (k', v) :: rest => if k' = k then some v else alist_get rest k

/-- JS Map.set / object assignment: update the existing entry in place,
otherwise append a new entry at the end (JS insertion order). -/
def alist_set {α β : Type} [DecidableEq α] (m : List (α × β)) (k : α) (v : β) : List (α × β) :=
  match m with
  | [] => [(k, v)]
  | (k', v') :: rest => if k' = k then (k', v) :: rest else (k', v') :: alist_set rest k v

/-- JS Map.delete / delete obj[k]: drop the entry for the key. -/
def alist_del {α β : Type} [DecidableEq α] (m : List (α × β)) (k : α) : List (α × β) :=
  match m with
  | [] => []
  | (k', v') :: rest => if k' = k then alist_del rest k else (k', v') :: alist_del rest k

/-! ## Text editor data model (editor.js) -/

/-- A cursor entry: { position, username, colour }. -/
structure Cursor where
  position : Int
  username : String
  colour : String
deriving Repr, DecidableEq

/-- PropertyRanges: either { flags: false, ranges: [..] } or
{ flags: true, ranges: Map flag -> [..] }.  A JS Map can be keyed by
undefined, hence the Option String bucket keys. -/
inductive PropRanges where
  | flagless (ranges : List (Int × Int))
  | flagged (buckets : List (Option String × List (Int × Int)))
deriving Repr, DecidableEq

/-- Cursor tables: JS object keyed by userid. -/
abbrev Cursors := List (Nat × Cursor)

/-- Property tables: JS Map keyed by property name. -/
abbrev Properties := List (String × PropRanges)

/-- One entry of the #builtup_inputs pending queue. -/
inductive PendingOp where
  | remove (start stop : Int)
  | add (position : Int) (text : String)
  | add_property (start stop : Int) (property : String) (flag : Option String)
  | remove_property (start stop : Int) (property : String)
  | cursor (position : Int)
deriving Repr, DecidableEq

/-- Ghost log of socket.emit calls made by the engine. -/
inductive OutEvent where
  | remove_region (start stop : Int) (last_mod_id : Option Int)
  | add_region (text : String) (position : Int) (last_mod_id : Option Int)
  | add_property (start stop : Int) (property : String) (flag : Option String)
      (last_mod_id : Option Int)
  | remove_property (start stop : Int) (property : String) (last_mod_id : Option Int)
  | cursor_moved (position : Int) (last_mod_id : Option Int)
  | update_last_mod_id (last_mod_id : Option Int)
deriving Repr, DecidableEq

/-- One replica of the document: text content, cursor table, property
table.  The source keeps these as the field triples
(content, cursors, properties) and (server_content, server_cursors,
server_properties); every primitive selects one triple via its
server_side flag. -/
structure Replica where
  content : String
  cursors : Cursors
  properties : Properties
deriving Repr, DecidableEq

/-- Full engine state of the Editor class. -/
structure Editor where
  live : Replica
  server : Replica
  builtup_inputs : List PendingOp
  last_mod_id : Option Int
  last_mod_id_dirty : Bool
  userid : Option Nat
  read_only : Bool
  emitted : List OutEvent
  crashed : Bool
deriving Repr, DecidableEq

/-! ## Replica-level primitives -/

/-- Shift both endpoints of every range in a list. -/
def shiftRanges (shift : Int → Int) (rs : List (Int × Int)) : List (Int × Int) :=
  rs.map (fun r => (shift r.1, shift r.2))

/-- Shift every range endpoint of one property. -/
def shiftPropRanges (shift : Int → Int) : PropRanges → PropRanges
  | .flagless rs => .flagless (shiftRanges shift rs)
  | .flagged bs => .flagged (bs.map (fun b => (b.1, shiftRanges shift b.2)))

/-- #shift_all_fixed_points: apply a shift to every cursor position and
every property range endpoint of the selected replica. -/
def Replica.shift_all_fixed_points (r : Replica) (shift : Int → Int) : Replica :=
  { r with
    cursors := r.cursors.map (fun kc => (kc.1, { kc.2 with position := shift kc.2.position })),
    properties := r.properties.map (fun np => (np.1, shiftPropRanges shift np.2)) }

/-- remove_empty inside #remove_empty_property_ranges: splice out every
range with start >= end. -/
def remove_empty (rs : List (Int × Int)) : List (Int × Int) :=
  rs.filter (fun r => decide (r.1 < r.2))

/-- Cleaning of one property's ranges inside #remove_empty_property_ranges. -/
def cleanPropRanges : PropRanges → PropRanges
  | .flagged bs =>
      .flagged ((bs.map (fun b => (b.1, remove_empty b.2))).filter (fun b => !b.2.isEmpty))
  | .flagless rs => .flagless (remove_empty rs)

/-- Whether a cleaned property still holds any range. -/
def propNonEmpty : PropRanges → Bool
  | .flagged bs => !bs.isEmpty
  | .flagless rs => !rs.isEmpty

/-- #remove_empty_property_ranges: drop empty ranges, then empty flag
buckets, then empty properties. -/
def Replica.remove_empty_property_ranges (r : Replica) : Replica :=
  let cleaned := r.properties.map (fun np => (np.1, cleanPropRanges np.2))
  { r with properties := cleaned.filter (fun np => propNonEmpty np.2) }

/-- JS String.prototype.substring: clamps both indices to [0, length] and
swaps them when start > end. -/
def jsSubstring (s : String) (a b : Int) : String :=
  let n : Int := s.length
  let a' := max 0 (min a n)
  let b' := max 0 (min b n)
  let lo := (min a' b').toNat
  let hi := (max a' b').toNat
  String.mk ((s.toList.drop lo).take (hi - lo))

/-- #actual_remove on one replica: shift fixed points, clean empty
ranges, splice the interval out of the content. -/
def Replica.actual_remove (r : Replica) (start stop : Int) : Replica :=
  let r := r.shift_all_fixed_points
    (fun pos => if pos > start then pos - (min stop pos - start) else pos)
  let r := r.remove_empty_property_ranges
  { r with content :=
      jsSubstring r.content 0 start ++ jsSubstring r.content stop (r.content.length : Int) }

/-- #actual_add on one replica: shift fixed points, splice the text into
the content. -/
def Replica.actual_add (r : Replica) (text : String) (position : Int) : Replica :=
  let r := r.shift_all_fixed_points
    (fun pos => if pos > position then pos + (text.length : Int) else pos)
  { r with content :=
      jsSubstring r.content 0 position ++ text
        ++ jsSubstring r.content position (r.content.length : Int) }

/-- cutOverlaps inside #actual_remove_property: split every range of a
bucket around the half-open interval [start, stop). -/
def cutOverlaps (start stop : Int) (rs : List (Int × Int)) : List (Int × Int) :=
  rs.foldl
    (fun acc r =>
      if r.1 ≥ start then
        if r.2 > stop then acc ++ [(max stop r.1, r.2)] else acc
      else
        if r.2 > stop then acc ++ [(r.1, start), (stop, r.2)]
        else acc ++ [(r.1, min start r.2)])
    []

/-- #actual_remove_property on one replica: cut [start, stop) out of
every bucket of the property, dropping empty buckets and, when nothing
remains, the property itself. -/
def Replica.actual_remove_property (r : Replica) (start stop : Int) (property : String) :
    Replica :=
  match alist_get r.properties property with
  | none => r
  | some pr =>
    let new_props :=
      match pr with
      | .flagged bs =>
        let bs' := bs.foldl
          (fun acc b =>
            let nr := cutOverlaps start stop b.2
            if nr.isEmpty then acc else acc ++ [(b.1, nr)])
          []
        if bs'.isEmpty then alist_del r.properties property
        else alist_set r.properties property (.flagged bs')
      | .flagless rs =>
        let nr := cutOverlaps start stop rs
        if nr.isEmpty then alist_del r.properties property
        else alist_set r.properties property (.flagless nr)
    { r with properties := new_props }

/-- One step of the forEach merge scan of #actual_add_property.  Every
range whose end equals the new start is extended to the new end; every
other range whose start equals the new end gets its END set to the new
start (the source's behaviour, which leaves the range reversed). -/
def mergeFold (start stop : Int) (acc : List (Int × Int) × Bool) (r : Int × Int) :
    List (Int × Int) × Bool :=
  if r.2 = start then (acc.1 ++ [(r.1, stop)], true)
  else if r.1 = stop then (acc.1 ++ [(r.1, start)], true)
  else (acc.1 ++ [r], acc.2)

/-- The merge scan of #actual_add_property: run the forEach over the
bucket and push [start, stop) only when no range matched. -/
def mergeStep (start stop : Int) (rs : List (Int × Int)) : List (Int × Int) :=
  let step := rs.foldl (mergeFold start stop) ([], false)
  if step.2 then step.1 else step.1 ++ [(start, stop)]

/-- JS truthiness of the flag argument: undefined and the empty string
are falsy. -/
def jsTruthy : Option String → Bool
  | none => false
  | some s => !(s == "")

/-- #actual_add_property on one replica.  The source first clears
[start, stop) via #actual_remove_property while holding a reference to
the old property object; when that removal deletes the property from the
map, the later merge mutates an orphan object and the map stays without
the property, which the second lookup models. -/
def Replica.actual_add_property (r : Replica) (start stop : Int) (property : String)
    (flag : Option String) : Replica :=
  match alist_get r.properties property with
  | some _ =>
    let r := r.actual_remove_property start stop property
    match alist_get r.properties property with
    | none => r
    | some pr =>
      match pr with
      | .flagged bs =>
        let ranges := (alist_get bs flag).getD []
        let bs' := alist_set bs flag (mergeStep start stop ranges)
        { r with properties := alist_set r.properties property (.flagged bs') }
      | .flagless rs =>
        let rs' := mergeStep start stop rs
        { r with properties := alist_set r.properties property (.flagless rs') }
  | none =>
    if jsTruthy flag then
      { r with properties := alist_set r.properties property (.flagged [(flag, [(start, stop)])]) }
    else
      { r with properties := alist_set r.properties property (.flagless [(start, stop)]) }

/-! ## Editor-level operations -/

/-- The fixed seven-colour palette CURSOR_COLOURS. -/
def CURSOR_COLOURS : List String :=
  ["red", "orange", "brown", "green", "blue", "violet", "pink"]

/-- Select the replica named by the server_side flag and transform it. -/
def Editor.apply_side (t : Editor) (server_side : Bool) (f : Replica → Replica) : Editor :=
  match server_side with
  | true => { t with server := f t.server }
  | false => { t with live := f t.live }

/-- #actual_remove with the server_side flag. -/
def Editor.actual_remove (t : Editor) (start stop : Int) (server_side : Bool) : Editor :=
  t.apply_side server_side (fun r => r.actual_remove start stop)

/-- #actual_add with the server_side flag. -/
def Editor.actual_add (t : Editor) (text : String) (position : Int) (server_side : Bool) :
    Editor :=
  t.apply_side server_side (fun r => r.actual_add text position)

/-- #actual_add_property with the server_side flag. -/
def Editor.actual_add_property (t : Editor) (start stop : Int) (property : String)
    (flag : Option String) (server_side : Bool) : Editor :=
  t.apply_side server_side (fun r => r.actual_add_property start stop property flag)

/-- #actual_remove_property with the server_side flag. -/
def Editor.actual_remove_property (t : Editor) (start stop : Int) (property : String)
    (server_side : Bool) : Editor :=
  t.apply_side server_side (fun r => r.actual_remove_property start stop property)

/-- socket.emit, recorded on the ghost log. -/
def Editor.emit (t : Editor) (e : OutEvent) : Editor :=
  { t with emitted := t.emitted ++ [e] }

/-- #set_last_mod_id: record the server sequence number and mark dirty. -/
def Editor.set_last_mod_id (t : Editor) (m : Int) : Editor :=
  { t with last_mod_id := some m, last_mod_id_dirty := true }

/-- this.#cursors[uid].position = pos, with the TypeError on a missing
entry (or an undefined userid) recorded in the crashed flag. -/
def Editor.set_live_cursor (t : Editor) (uid : Option Nat) (pos : Int) : Editor :=
  match uid with
  | none => { t with crashed := true }
  | some u =>
    match alist_get t.live.cursors u with
    | none => { t with crashed := true }
    | some c =>
      { t with live := { t.live with cursors := alist_set t.live.cursors u { c with position := pos } } }

/-- A fresh Editor instance (constructor state before any event). -/
def Editor.init (read_only : Bool) : Editor :=
  { live := { content := "", cursors := [], properties := [] },
    server := { content := "", cursors := [], properties := [] },
    builtup_inputs := [], last_mod_id := none, last_mod_id_dirty := false,
    userid := none, read_only := read_only, emitted := [], crashed := false }

/-- #on_connected: record the assigned userid, fill both replicas from
the snapshot, create the local cursor (unless read-only). -/
def Editor.on_connected (t : Editor) (my_userid : Nat) (content : String) (last_mod_id : Int) :
    Editor :=
  let t := { t with userid := some my_userid,
                    live := { t.live with content := content },
                    server := { t.server with content := content },
                    last_mod_id := some last_mod_id }
  if !t.read_only then
    let me : Cursor := { position := 0, username := "Me", colour := "black" }
    let t := { t with live := { t.live with cursors := alist_set t.live.cursors my_userid me } }
    { t with server := { t.server with cursors := t.live.cursors } }
  else t

/-- #on_user_disconnected: drop the user from both cursor tables. -/
def Editor.on_user_disconnected (t : Editor) (uid : Nat) : Editor :=
  { t with live := { t.live with cursors := alist_del t.live.cursors uid },
           server := { t.server with cursors := alist_del t.server.cursors uid } }

/-- The public remove operation. -/
def Editor.remove (t : Editor) (start stop : Int) : Editor :=
  if t.read_only then t
  else
    let t := { t with builtup_inputs := t.builtup_inputs ++ [PendingOp.remove start stop] }
    let t := t.emit (.remove_region start stop t.last_mod_id)
    let t := { t with last_mod_id_dirty := false }
    t.actual_remove start stop false

/-- The public move_cursor operation.  The source writes to
this.#cursors[this.#userid] before emitting, so an uninitialised engine
enqueues the op and then throws. -/
def Editor.move_cursor (t : Editor) (position : Int) : Editor :=
  if t.read_only then t
  else
    let t := { t with builtup_inputs := t.builtup_inputs ++ [PendingOp.cursor position] }
    match t.userid with
    | none => { t with crashed := true }
    | some u =>
      match alist_get t.live.cursors u with
      | none => { t with crashed := true }
      | some c =>
        let cs := alist_set t.live.cursors u { c with position := position }
        let t := { t with live := { t.live with cursors := cs } }
        let t := t.emit (.cursor_moved position t.last_mod_id)
        { t with last_mod_id_dirty := false }

/-- The public add operation.  After the local splice the source reads
this.position (a lookup of the local cursor) and advances the cursor by
a move_cursor call when it sat exactly at the insertion point. -/
def Editor.add (t : Editor) (text : String) (position : Int) : Editor :=
  if t.read_only then t
  else
    let t := { t with builtup_inputs := t.builtup_inputs ++ [PendingOp.add position text] }
    let t := t.emit (.add_region text position t.last_mod_id)
    let t := { t with last_mod_id_dirty := false }
    let t := t.actual_add text position false
    match t.userid with
    | none => { t with crashed := true }
    | some u =>
      match alist_get t.live.cursors u with
      | none => { t with crashed := true }
      | some c =>
        if c.position = position then t.move_cursor (position + (text.length : Int)) else t

/-- The two possible actions of toggle_property. -/
inductive TogAction where
  | add
  | remove
deriving Repr, DecidableEq

/-- The bucket toggle_property inspects: the flag bucket of a flagged
property (empty when missing), or the ranges of a flagless one. -/
def togRanges (ps : Properties) (property : String) (flag : Option String) :
    List (Int × Int) :=
  match alist_get ps property with
  | none => []
  | some (.flagged bs) => (alist_get bs flag).getD []
  | some (.flagless rs) => rs

/-- The overlap filter of toggle_property (a touching range counts). -/
def overlapping_ranges (rs : List (Int × Int)) (start stop : Int) : List (Int × Int) :=
  rs.filter (fun r => if start ≤ r.1 then decide (r.1 ≤ stop) else decide (r.2 ≥ start))

/-- The action decision of toggle_property: remove exactly when the
overlap filter returns a single range that fully covers [start, stop). -/
def toggle_action (ps : Properties) (start stop : Int) (property : String)
    (flag : Option String) : TogAction :=
  match alist_get ps property with
  | none => .add
  | some _ =>
    match overlapping_ranges (togRanges ps property flag) start stop with
    | [r] => if r.1 ≤ start ∧ stop ≤ r.2 then .remove else .add
    | _ => .add

/-- The public toggle_property operation. -/
def Editor.toggle_property (t : Editor) (start stop : Int) (property : String)
    (flag : Option String) : Editor :=
  if t.read_only then t
  else
    match toggle_action t.live.properties start stop property flag with
    | .add =>
      let t := { t with builtup_inputs := t.builtup_inputs ++ [PendingOp.add_property start stop property flag] }
      let t := t.emit (.add_property start stop property flag t.last_mod_id)
      let t := t.actual_add_property start stop property flag false
      { t with last_mod_id_dirty := false }
    | .remove =>
      let t := { t with builtup_inputs := t.builtup_inputs ++ [PendingOp.remove_property start stop property] }
      let t := t.emit (.remove_property start stop property t.last_mod_id)
      let t := t.actual_remove_property start stop property false
      { t with last_mod_id_dirty := false }

/-! ## Inbound event handlers -/

/-- The rebase loop of #on_cursor_moved for a remote user: shift the
server-sent position through every pending remove / add. -/
def rebase_cursor_position (inputs : List PendingOp) (position : Int) : Int :=
  inputs.foldl
    (fun pos input =>
      match input with
      | .remove s e => if pos > s then pos - (min e pos - s) else pos
      | .add p txt => if pos > p then pos + (txt.length : Int) else pos
      | _ => pos)
    position

/-- #on_cursor_moved.  For the local user's echo: pop the queue head
(the assert only logs) and write the echoed position into the shadow
cursor table.  For a remote user: rebase the position through the
pending queue, update or create the live entry, and clone it into the
shadow table.  The choice argument models the Math.random index used
when picking a colour for a newly seen user. -/
def Editor.on_cursor_moved (t : Editor) (position : Int) (userid : Nat) (username : String)
    (mod_id : Int) (choice : Nat) : Editor :=
  let t := t.set_last_mod_id mod_id
  if t.userid = some userid then
    match t.builtup_inputs with
    | [] => { t with crashed := true }
    | _ :: rest =>
      let t := { t with builtup_inputs := rest }
      match alist_get t.server.cursors userid with
      | none => { t with crashed := true }
      | some c =>
        let scs := alist_set t.server.cursors userid { c with position := position }
        { t with server := { t.server with cursors := scs } }
  else
    let position := rebase_cursor_position t.builtup_inputs position
    match alist_get t.live.cursors userid with
    | some c =>
      let c' := { c with position := position }
      { t with live := { t.live with cursors := alist_set t.live.cursors userid c' },
               server := { t.server with cursors := alist_set t.server.cursors userid c' } }
    | none =>
      let remaining :=
        CURSOR_COLOURS.filter (fun col => !(t.live.cursors.any (fun kc => kc.2.colour == col)))
      let c : Cursor :=
        { position := position, username := username, colour := (remaining.get? choice).getD "undefined" }
      { t with live := { t.live with cursors := alist_set t.live.cursors userid c },
               server := { t.server with cursors := alist_set t.server.cursors userid c } }

/-- The rebase-and-replay step of #on_add_region for one pending entry:
shift its coordinates by the remote insertion (mutating the queue entry)
and re-apply it to the live replica. -/
def add_region_replay (position len : Int) (acc : Editor × List PendingOp) (input : PendingOp) :
    Editor × List PendingOp :=
  match input with
  | .remove s e =>
    let s := if position < s then s + len else s
    let e := if position ≤ e then e + len else e
    (acc.1.actual_remove s e false, acc.2 ++ [.remove s e])
  | .add p txt =>
    let p := if position < p then p + len else p
    (acc.1.actual_add txt p false, acc.2 ++ [.add p txt])
  | .remove_property s e prop =>
    let s := if position < s then s + len else s
    let e := if position ≤ e then e + len else e
    (acc.1.actual_remove_property s e prop false, acc.2 ++ [.remove_property s e prop])
  | .add_property s e prop flag =>
    let s := if position < s then s + len else s
    let e := if position ≤ e then e + len else e
    (acc.1.actual_add_property s e prop flag false, acc.2 ++ [.add_property s e prop flag])
  | .cursor p =>
    let p := if position < p then p + len else p
    (acc.1.set_live_cursor acc.1.userid p, acc.2 ++ [.cursor p])

/-- #on_add_region: authoritative application to the shadow replica,
then either pop of the echoed own op, or reset of the live replica to
the shadow followed by the rebase-and-replay of the pending queue. -/
def Editor.on_add_region (t : Editor) (text : String) (position : Int) (userid : Nat)
    (mod_id : Int) : Editor :=
  let t := t.set_last_mod_id mod_id
  let t := t.actual_add text position true
  if t.userid = some userid then
    match t.builtup_inputs with
    | [] => { t with crashed := true }
    | _ :: rest => { t with builtup_inputs := rest }
  else
    let t := { t with live := t.server }
    let res := t.builtup_inputs.foldl (add_region_replay position (text.length : Int)) (t, [])
    { res.1 with builtup_inputs := res.2 }

/-- The rebase-and-replay step of #on_remove_region for one pending
entry. -/
def remove_region_replay (start stop : Int) (acc : Editor × List PendingOp) (input : PendingOp) :
    Editor × List PendingOp :=
  match input with
  | .remove s e =>
    let s := if start < s then s - (min s stop - start) else s
    let e := if start < e then e - (min e stop - start) else e
    (acc.1.actual_remove s e false, acc.2 ++ [.remove s e])
  | .add p txt =>
    let p := if start < p then p - (min p stop - start) else p
    (acc.1.actual_add txt p false, acc.2 ++ [.add p txt])
  | .remove_property s e prop =>
    let s := if start < s then s - (min s stop - start) else s
    let e := if start < e then e - (min e stop - start) else e
    (acc.1.actual_remove_property s e prop false, acc.2 ++ [.remove_property s e prop])
  | .add_property s e prop flag =>
    let s := if start < s then s - (min s stop - start) else s
    let e := if start < e then e - (min e stop - start) else e
    (acc.1.actual_add_property s e prop flag false, acc.2 ++ [.add_property s e prop flag])
  | .cursor p =>
    let p := if start < p then p - (min p stop - start) else p
    (acc.1.set_live_cursor acc.1.userid p, acc.2 ++ [.cursor p])

/-- #on_remove_region: authoritative application, then echo pop or
reset-and-replay, mirroring #on_add_region. -/
def Editor.on_remove_region (t : Editor) (start stop : Int) (userid : Nat) (mod_id : Int) :
    Editor :=
  let t := t.set_last_mod_id mod_id
  let t := t.actual_remove start stop true
  if t.userid = some userid then
    match t.builtup_inputs with
    | [] => { t with crashed := true }
    | _ :: rest => { t with builtup_inputs := rest }
  else
    let t := { t with live := t.server }
    let res := t.builtup_inputs.foldl (remove_region_replay start stop) (t, [])
    { res.1 with builtup_inputs := res.2 }

/-- One step of the replay loop shared by #on_add_property and
#on_remove_property.  Pending text ops shift the remote op's own
coordinates (the shifted values are never used afterwards in the
source); pending property ops are re-applied to the live replica; the
pending queue itself is not modified. -/
def property_replay (shiftRemove : Int → Int → Int → Int) (shiftAdd : Int → Int → Int → Int)
    (acc : Editor × Int × Int) (input : PendingOp) : Editor × Int × Int :=
  match acc with
  | (t, s0, e0) =>
    match input with
    | .remove s e => (t, shiftRemove s0 s e, shiftRemove e0 s e)
    | .add p txt => (t, shiftAdd s0 p (txt.length : Int), shiftAdd e0 p (txt.length : Int))
    | .remove_property s e prop => (t.actual_remove_property s e prop false, s0, e0)
    | .add_property s e prop flag => (t.actual_add_property s e prop flag false, s0, e0)
    | .cursor _ => (t, s0, e0)

/-- The coordinate shift for a pending remove op in the property
handlers: pos - (min(inputEnd, pos) - inputStart) when pos > inputStart. -/
def propShiftRemove (pos s e : Int) : Int :=
  if pos > s then pos - (min e pos - s) else pos

/-- The coordinate shift for a pending add op in the property handlers. -/
def propShiftAdd (pos p len : Int) : Int :=
  if pos > p then pos + len else pos

/-- #on_add_property: authoritative application to the shadow property
table, then echo pop, or reset of the live property table to the shadow
one and the replay loop. -/
def Editor.on_add_property (t : Editor) (start stop : Int) (property : String)
    (flag : Option String) (userid : Nat) (mod_id : Int) : Editor :=
  let t := t.set_last_mod_id mod_id
  let t := t.actual_add_property start stop property flag true
  if t.userid = some userid then
    match t.builtup_inputs with
    | [] => { t with crashed := true }
    | _ :: rest => { t with builtup_inputs := rest }
  else
    let t := { t with live := { t.live with properties := t.server.properties } }
    let res := t.builtup_inputs.foldl (property_replay propShiftRemove propShiftAdd)
      (t, start, stop)
    res.1

/-- #on_remove_property, mirroring #on_add_property. -/
def Editor.on_remove_property (t : Editor) (start stop : Int) (property : String)
    (userid : Nat) (mod_id : Int) : Editor :=
  let t := t.set_last_mod_id mod_id
  let t := t.actual_remove_property start stop property true
  if t.userid = some userid then
    match t.builtup_inputs with
    | [] => { t with crashed := true }
    | _ :: rest => { t with builtup_inputs := rest }
  else
    let t := { t with live := { t.live with properties := t.server.properties } }
    let res := t.builtup_inputs.foldl (property_replay propShiftRemove propShiftAdd)
      (t, start, stop)
    res.1

/-! ## Whiteboard scene graph (whiteboard.js) -/

/-- A scene element: an SVG path (with its d attribute) or a group of
child elements. -/
inductive Elem where
  | path (eid : String) (d : String)
  | group (eid : String) (children : List Elem)

/-- The drawing area: the list of top-level elements, in document order. -/
abbrev Scene := List Elem

/-- The id attribute of an element. -/
def Elem.eid : Elem → String
  | .path i _ => i
  | .group i _ => i

/-- The childNodes of an element (a path has none). -/
def Elem.childrenOf : Elem → List Elem
  | .path _ _ => []
  | .group _ cs => cs

/-- document.getElementById over the scene: first match in document
(preorder) order, any depth. -/
def findInList (s : List Elem) (q : String) : Option Elem :=
  match s with
  | [] => none
  | e :: rest =>
    match e with
    | .path i d => if i = q then some (.path i d) else findInList rest q
    | .group i cs =>
      if i = q then some (.group i cs)
      else
        match findInList cs q with
        | some r => some r
        | none => findInList rest q

/-- Whether the element with the given id is an immediate child of the
drawing area (area.removeChild succeeds exactly then). -/
def isTopLevel (s : Scene) (q : String) : Bool :=
  s.any (fun e => e.eid == q)

/-- Remove the top-level element with the given id (ids are unique per
the id-generation scheme, so this is area.removeChild of that node). -/
def removeTopLevel (s : Scene) (q : String) : Scene :=
  s.filter (fun e => !(e.eid == q))

/-- Element.prototype.remove on the (unique) element with the given id,
wherever it sits in the tree. -/
def removeIdInList (q : String) : List Elem → List Elem
  | [] => []
  | e :: rest =>
    match e with
    | .path i d => if i = q then removeIdInList q rest else .path i d :: removeIdInList q rest
    | .group i cs =>
      if i = q then removeIdInList q rest
      else .group i (removeIdInList q cs) :: removeIdInList q rest

/-- setAttribute of the d attribute on the (unique) path with the given
id.  A d attribute set on a group element has no modelled effect. -/
def setDInList (q d : String) : List Elem → List Elem
  | [] => []
  | e :: rest =>
    match e with
    | .path i d0 => (if i = q then Elem.path i d else .path i d0) :: setDInList q d rest
    | .group i cs => Elem.group i (setDInList q d cs) :: setDInList q d rest

/-- #on_draw: ignore the event when an element with the id already
exists, else append a fresh path. -/
def on_draw (s : Scene) (i d : String) : Scene :=
  match findInList s i with
  | some _ => s
  | none => s ++ [.path i d]

/-- #on_remove: document.getElementById(id)?.remove() — a silent no-op
when the id is absent. -/
def on_remove (s : Scene) (i : String) : Scene :=
  match findInList s i with
  | none => s
  | some _ => removeIdInList i s

/-- #on_edit: document.getElementById(id)?.setAttribute(d, ...) — a
silent no-op when the id is absent. -/
def on_edit (s : Scene) (i d : String) : Scene :=
  match findInList s i with
  | none => s
  | some _ => setDInList i d s

/-- The two ways #ungroup can throw. -/
inductive UngroupError where
  | nullDeref
  | notFound
deriving Repr, DecidableEq

/-- #ungroup: document.getElementById(group_id) with no null guard, so a
missing id dereferences null (nullDeref).  Otherwise every child is
appended to the top level in order and area.removeChild(group) runs,
which throws (notFound) when the found element is not an immediate child
of the drawing area. -/
def ungroup (s : Scene) (gid : String) : Except UngroupError Scene :=
  match findInList s gid with
  | none => .error .nullDeref
  | some g =>
    if isTopLevel s gid then .ok (removeTopLevel s gid ++ g.childrenOf)
    else .error .notFound

/-- #group: build a detached group, move every named child out of the
top level into it (area.removeChild throws — modelled as none — when a
named child exists but is not top-level; a missing child is skipped),
then append the group. -/
def group_handler (s : Scene) (gid : String) (children_id : List String) : Option Scene :=
  let res := children_id.foldl
    (fun (acc : Option (Scene × List Elem)) cid =>
      match acc with
      | none => none
      | some (s, gcs) =>
        match findInList s cid with
        | none => some (s, gcs)
        | some c =>
          if isTopLevel s cid then some (removeTopLevel s cid, gcs ++ [c])
          else none)
    (some (s, []))
  match res with
  | none => none
  | some (s, gcs) => some (s ++ [.group gid gcs])

/-! ## Geometry helpers (html_utilities.js), in IEEE binary64 arithmetic

The source computes in JavaScript numbers, i.e. IEEE binary64.  Every
finite double is a dyadic rational m * 2^e, modelled by the pair Dy
below (the representation is not canonical; equal values may have
different pairs, and the functions only ever compare values).  Each
IEEE operation rounds its exact result to 53 significant bits, to
nearest, ties to even; fl implements exactly that rounding, with an
unbounded exponent: overflow to infinity, subnormal rounding and NaN
are not modelled, and the fuelled bit-length saturates for mantissas
beyond 4200 bits — all far outside the values these claims exercise,
which are normal numbers throughout. -/

/-- A finite binary64 value: the dyadic rational m * 2^e. -/
structure Dy where
  m : Int
  e : Int
deriving Repr, DecidableEq

/-- Negation of a dyadic (exact in IEEE). -/
def dneg (x : Dy) : Dy := ⟨-x.m, x.e⟩

/-- Fuelled bit-length helper: floor(log2 n) for n >= 1. -/
def natLog2F : Nat → Nat → Nat
  | 0, _ => 0
  | fuel+1, n => if n ≤ 1 then 0 else natLog2F fuel (n / 2) + 1

/-- Round a dyadic to 53 significant bits, to nearest, ties to even —
the binary64 rounding applied by every arithmetic operation. -/
def fl (x : Dy) : Dy :=
  if x.m = 0 then ⟨0, 0⟩
  else
    let n := x.m.natAbs
    let bits := natLog2F 4200 n + 1
    if bits ≤ 53 then x
    else
      let shift := bits - 53
      let q := n / 2 ^ shift
      let r := n % 2 ^ shift
      let half := 2 ^ (shift - 1)
      let q2 := if r < half then q else if half < r then q + 1 else if q % 2 = 0 then q else q + 1
      if x.m < 0 then ⟨-(q2 : Int), x.e + (shift : Int)⟩ else ⟨(q2 : Int), x.e + (shift : Int)⟩

/-- IEEE subtraction: round the exact difference. -/
def dsub (x y : Dy) : Dy :=
  let e := min x.e y.e
  fl ⟨x.m * 2 ^ (x.e - e).toNat - y.m * 2 ^ (y.e - e).toNat, e⟩

/-- IEEE multiplication: round the exact product. -/
def dmul (x y : Dy) : Dy := fl ⟨x.m * y.m, x.e + y.e⟩

/-- IEEE division: round the exact quotient to nearest, ties to even.
The mantissa quotient is computed to at least 54 bits and then rounded
using the exact remainder.  (Division by a zero value is never reached:
linesIntersect guards on its denominator first.) -/
def ddiv (x y : Dy) : Dy :=
  if x.m = 0 then ⟨0, 0⟩
  else
    let p := x.m.natAbs
    let q := y.m.natAbs
    let bp := natLog2F 4200 p + 1
    let bq := natLog2F 4200 q + 1
    let k : Int := 55 + (bq : Int) - (bp : Int)
    let N := p * 2 ^ k.toNat
    let D := q * 2 ^ (-k).toNat
    let Q := N / D
    let R := N % D
    let shift2 := natLog2F 4200 Q + 1 - 53
    let qq := Q / 2 ^ shift2
    let rr := Q % 2 ^ shift2
    let twice := 2 * (rr * D + R)
    let full := 2 ^ shift2 * D
    let qq2 := if twice < full then qq else if full < twice then qq + 1
      else if qq % 2 = 0 then qq else qq + 1
    let ee : Int := x.e - y.e - k + (shift2 : Int)
    if (x.m < 0 ↔ y.m < 0) then ⟨(qq2 : Int), ee⟩ else ⟨-(qq2 : Int), ee⟩

/-- Exact value comparison of two dyadics (IEEE comparison of finite
doubles is exact). -/
def dle (x y : Dy) : Bool :=
  let e := min x.e y.e
  decide (x.m * 2 ^ (x.e - e).toNat ≤ y.m * 2 ^ (y.e - e).toNat)

/-- The denominator of the parametric intersection of linesIntersect,
computed left-to-right in binary64 like the source. -/
def denomOf (a1 a2 b1 b2 : Dy × Dy) : Dy :=
  dsub (dmul (dsub b2.2 b1.2) (dsub a2.1 a1.1)) (dmul (dsub b2.1 b1.1) (dsub a2.2 a1.2))

/-- The parameter ua of linesIntersect, in binary64. -/
def uaOf (a1 a2 b1 b2 : Dy × Dy) : Dy :=
  ddiv (dsub (dmul (dsub b2.1 b1.1) (dsub a1.2 b1.2)) (dmul (dsub b2.2 b1.2) (dsub a1.1 b1.1)))
    (denomOf a1 a2 b1 b2)

/-- The parameter ub of linesIntersect, in binary64. -/
def ubOf (a1 a2 b1 b2 : Dy × Dy) : Dy :=
  ddiv (dsub (dmul (dsub a2.1 a1.1) (dsub a1.2 b1.2)) (dmul (dsub a2.2 a1.2) (dsub a1.1 b1.1)))
    (denomOf a1 a2 b1 b2)

/-- linesIntersect: false for a zero denominator, else both parameters
must lie in [0, 1]; all arithmetic in binary64. -/
def linesIntersect (a1 a2 b1 b2 : Dy × Dy) : Bool :=
  if (denomOf a1 a2 b1 b2).m = 0 then false
  else
    dle ⟨0, 0⟩ (uaOf a1 a2 b1 b2) && dle (uaOf a1 a2 b1 b2) ⟨1, 0⟩
      && dle ⟨0, 0⟩ (ubOf a1 a2 b1 b2) && dle (ubOf a1 a2 b1 b2) ⟨1, 0⟩

/-! ## Definitions written from the specification's words, for comparison -/

/-- Replace the first list entry satisfying the predicate. -/
def replaceFirst {α : Type} (p : α → Bool) (f : α → α) : List α → List α
  | [] => []
  | x :: xs => if p x then f x :: xs else x :: replaceFirst p f xs

/-- Modelled from the spec's merge rule as claimed (C5): a global
three-way decision — if some existing range R has R.end = start, that R
becomes (R.start, end); else if some existing R has R.start = end, that
R becomes (R.start, start); otherwise the new range is pushed. -/
def specMergeRule (rs : List (Int × Int)) (start stop : Int) : List (Int × Int) :=
  if rs.any (fun r => decide (r.2 = start)) then
    replaceFirst (fun r => decide (r.2 = start)) (fun r => (r.1, stop)) rs
  else if rs.any (fun r => decide (r.1 = stop)) then
    replaceFirst (fun r => decide (r.1 = stop)) (fun r => (r.1, start)) rs
  else rs ++ [(start, stop)]

/-- Whether the merge scan of #actual_add_property rewrites this range. -/
def mergeMatches (start stop : Int) (r : Int × Int) : Bool :=
  decide (r.2 = start) || decide (r.1 = stop)

/-- The per-range rewrite the merge scan of #actual_add_property applies. -/
def mergeRewrite (start stop : Int) (r : Int × Int) : Int × Int :=
  if r.2 = start then (r.1, stop) else if r.1 = stop then (r.1, start) else r

/-! ## Concrete engine runs used by the individual claims -/

/-- C1 run: connect with "abc", optimistically insert "X" at 1, receive
a remote add_property(2, 3, b) while the insert is still pending, then
receive the echo of the insert, draining the queue. -/
def c1_final : Editor :=
  ((((Editor.init false).on_connected 1 "abc" 0).add "X" 1).on_add_property
      2 3 "b" none 2 1).on_add_region "X" 1 1 2

/-- C2 run: connect, see a remote cursor at 0 for user 2, optimistically
insert "X" at 1, then receive cursor_moved(2) for user 2. -/
def c2_final : Editor :=
  ((((Editor.init false).on_connected 1 "abc" 0).on_cursor_moved 0 2 "bob" 1 0).add
      "X" 1).on_cursor_moved 2 2 "bob" 2 0

/-- C2 witness state: a connected engine with one pending insert. -/
def c2_witness_state : Editor :=
  (((Editor.init false).on_connected 1 "abc" 0).on_cursor_moved 0 2 "bob" 1 0).add "X" 1

/-- C3 run, intermediate state: connected with "abc", cursor moved to 3
and its echo received, then the public add of "X" at 1. -/
def c3_mid : Editor :=
  ((((Editor.init false).on_connected 1 "abc" 0).move_cursor 3).on_cursor_moved
      3 1 "Me" 1 0).add "X" 1

/-- C3 run, final state: the remote add_region of "YY" at 0 lands while
the insert of "X" is still pending. -/
def c3_final : Editor :=
  c3_mid.on_add_region "YY" 0 2 17

/-- C4 run: connect with "abcd", toggle b on [2, 3), then toggle b on
[0, 2) — the merge scan hits its right-touch case. -/
def c4_final : Editor :=
  (((Editor.init false).on_connected 1 "abcd" 0).toggle_property 2 3 "b" none).toggle_property
    0 2 "b" none

/-- C5 bucket before the merge under scrutiny: built by two adds. -/
def c5_before : Replica :=
  (Replica.mk "abcde" [] []).actual_add_property 0 1 "b" none |>.actual_add_property 3 4 "b" none

/-- C5 run: add [1, 3) into the bucket holding [0, 1) and [3, 4). -/
def c5_after : Replica :=
  c5_before.actual_add_property 1 3 "b" none

/-- C6 run: a public remove on a fresh, non-read-only engine whose
userid is still undefined. -/
def c6_final : Editor :=
  (Editor.init false).remove 0 0

/-- C7 run, property table under scrutiny: toggling b on [0, 12) and
then on the empty interval [10, 10) splits the single range into the
touching ranges [0, 10) and [10, 12). -/
def c7_mid : Editor :=
  (((Editor.init false).on_connected 1 "abcdefghijklm" 0).toggle_property 0 12 "b" none).toggle_property
    10 10 "b" none

/-- C7 run, final state: toggling b on [2, 10) over that table. -/
def c7_final : Editor :=
  c7_mid.toggle_property 2 10 "b" none

/-- C8 run, state before the mismatching echo: one pending remove op. -/
def c8_mid : Editor :=
  ((Editor.init false).on_connected 1 "abc" 0).remove 0 1

/-- C8 run, final state: the server echoes cursor_moved(2) for the local
user while the queue head is the remove op — an echo mismatch. -/
def c8_final : Editor :=
  c8_mid.on_cursor_moved 2 1 "Me" 5 0

/-- C8 witness state: a connected engine whose queue head is a cursor
op, so that every region / property echo mismatches it. -/
def c8_witness_state : Editor :=
  ((Editor.init false).on_connected 1 "abc" 0).move_cursor 2

/-- C10 run: draw a path, group it into g2, then group g2 into g1 —
a scene whose group g2 exists but is not top-level. -/
def c10_s1 : Scene := on_draw [] "p" "M 0 0 L 10 10"

/-- C10 run, after the first group event. -/
def c10_s2 : Scene := (group_handler c10_s1 "g2" ["p"]).getD []

/-- C10 run, after the second group event: g2 is nested inside g1. -/
def c10_s3 : Scene := (group_handler c10_s2 "g1" ["g2"]).getD []

/-! ## Helper lemmas -/

theorem alist_get_set_self {α β : Type} [DecidableEq α] (m : List (α × β)) (k : α) (v : β) :
    alist_get (alist_set m k v) k = some v := by
  induction m with
  | nil => simp [alist_set, alist_get]
  | cons kv rest ih =>
    by_cases h : kv.1 = k
    · simp [alist_set, alist_get, h]
    · simp [alist_set, alist_get, h, ih]

theorem server_actual_remove_false (t : Editor) (s e : Int) :
    (t.actual_remove s e false).server = t.server := rfl

theorem server_actual_add_false (t : Editor) (text : String) (p : Int) :
    (t.actual_add text p false).server = t.server := rfl

theorem server_actual_add_property_false (t : Editor) (s e : Int) (prop : String)
    (flag : Option String) : (t.actual_add_property s e prop flag false).server = t.server := rfl

theorem server_actual_remove_property_false (t : Editor) (s e : Int) (prop : String) :
    (t.actual_remove_property s e prop false).server = t.server := rfl

theorem server_set_live_cursor (t : Editor) (uid : Option Nat) (p : Int) :
    (t.set_live_cursor uid p).server = t.server := by
  cases uid with
  | none => rfl
  | some u =>
    cases h : alist_get t.live.cursors u <;> simp [Editor.set_live_cursor, h]

theorem foldl_server_eq {σ : Type} (f : (Editor × σ) → PendingOp → (Editor × σ))
    (hf : ∀ a x, ((f a x).1).server = (a.1).server) :
    ∀ (l : List PendingOp) (a : Editor × σ), ((l.foldl f a).1).server = (a.1).server := by
  intro l
  induction l with
  | nil => intro a; rfl
  | cons x xs ih => intro a; rw [List.foldl_cons, ih, hf]

theorem add_region_replay_server (position len : Int) (a : Editor × List PendingOp)
    (x : PendingOp) : ((add_region_replay position len a x).1).server = (a.1).server := by
  cases x <;>
    simp [add_region_replay, Editor.actual_remove, Editor.actual_add,
      Editor.actual_remove_property, Editor.actual_add_property, Editor.apply_side,
      server_set_live_cursor]

theorem remove_region_replay_server (start stop : Int) (a : Editor × List PendingOp)
    (x : PendingOp) : ((remove_region_replay start stop a x).1).server = (a.1).server := by
  cases x <;>
    simp [remove_region_replay, Editor.actual_remove, Editor.actual_add,
      Editor.actual_remove_property, Editor.actual_add_property, Editor.apply_side,
      server_set_live_cursor]

theorem property_replay_server (a : Editor × Int × Int) (x : PendingOp) :
    ((property_replay propShiftRemove propShiftAdd a x).1).server = (a.1).server := by
  obtain ⟨t, s0, e0⟩ := a
  cases x <;>
    simp [property_replay, Editor.actual_remove_property, Editor.actual_add_property,
      Editor.apply_side]

theorem server_on_add_region (t : Editor) (text : String) (pos : Int) (uid : Nat) (mid : Int) :
    (t.on_add_region text pos uid mid).server
      = ((t.set_last_mod_id mid).actual_add text pos true).server := by
  unfold Editor.on_add_region
  dsimp only
  split
  · split <;> rfl
  · exact (foldl_server_eq _ (add_region_replay_server pos (text.length : Int)) _ _).trans rfl

theorem server_on_remove_region (t : Editor) (start stop : Int) (uid : Nat) (mid : Int) :
    (t.on_remove_region start stop uid mid).server
      = ((t.set_last_mod_id mid).actual_remove start stop true).server := by
  unfold Editor.on_remove_region
  dsimp only
  split
  · split <;> rfl
  · exact (foldl_server_eq _ (remove_region_replay_server start stop) _ _).trans rfl

theorem server_on_add_property (t : Editor) (start stop : Int) (prop : String)
    (flag : Option String) (uid : Nat) (mid : Int) :
    (t.on_add_property start stop prop flag uid mid).server
      = ((t.set_last_mod_id mid).actual_add_property start stop prop flag true).server := by
  unfold Editor.on_add_property
  dsimp only
  split
  · split <;> rfl
  · exact (foldl_server_eq (σ := Int × Int) _ property_replay_server _ _).trans rfl

theorem server_on_remove_property (t : Editor) (start stop : Int) (prop : String)
    (uid : Nat) (mid : Int) :
    (t.on_remove_property start stop prop uid mid).server
      = ((t.set_last_mod_id mid).actual_remove_property start stop prop true).server := by
  unfold Editor.on_remove_property
  dsimp only
  split
  · split <;> rfl
  · exact (foldl_server_eq (σ := Int × Int) _ property_replay_server _ _).trans rfl

theorem server_cursor_on_cursor_moved (t : Editor) (pos : Int) (uid : Nat) (uname : String)
    (mid : Int) (choice : Nat) (h : t.userid ≠ some uid) :
    (alist_get (t.on_cursor_moved pos uid uname mid choice).server.cursors uid).map
        Cursor.position
      = some (rebase_cursor_position t.builtup_inputs pos) := by
  unfold Editor.on_cursor_moved
  dsimp only [Editor.set_last_mod_id]
  rw [if_neg h]
  cases hc : alist_get t.live.cursors uid <;>
    simp [Editor.set_last_mod_id, hc, alist_get_set_self]

theorem mergeFold_foldl (start stop : Int) :
    ∀ (rs : List (Int × Int)) (acc : List (Int × Int)) (b : Bool),
      rs.foldl (mergeFold start stop) (acc, b)
        = (acc ++ rs.map (mergeRewrite start stop), b || rs.any (mergeMatches start stop)) := by
  intro rs
  induction rs with
  | nil => intro acc b; simp
  | cons r rs ih =>
    intro acc b
    rw [List.foldl_cons]
    by_cases h1 : r.2 = start
    · simp [mergeFold, mergeRewrite, mergeMatches, h1, ih]
    · by_cases h2 : r.1 = stop
      · simp [mergeFold, mergeRewrite, mergeMatches, h1, h2, ih]
      · simp [mergeFold, mergeRewrite, mergeMatches, h1, h2, ih]

theorem fl_neg (mm ee : Int) : fl ⟨-mm, ee⟩ = dneg (fl ⟨mm, ee⟩) := by
  unfold fl dneg
  by_cases h0 : mm = 0
  · simp [h0]
  · have h0' : ¬(-mm = 0) := by simpa using h0
    simp only [h0, h0', if_false, Int.natAbs_neg]
    by_cases hb : natLog2F 4200 mm.natAbs + 1 ≤ 53
    · simp [hb]
    · simp only [hb, if_false]
      by_cases hneg : mm < 0
      · have h1 : ¬(-mm < 0) := by omega
        simp [hneg, h1]
      · have h2 : -mm < 0 := by omega
        simp [hneg, h2]

theorem dsub_anti (x y : Dy) : dsub y x = dneg (dsub x y) := by
  unfold dsub
  dsimp only
  rw [min_comm y.e x.e]
  rw [show y.m * 2 ^ (y.e - min x.e y.e).toNat - x.m * 2 ^ (x.e - min x.e y.e).toNat
      = -(x.m * 2 ^ (x.e - min x.e y.e).toNat - y.m * 2 ^ (y.e - min x.e y.e).toNat) by ring]
  exact fl_neg _ _

theorem dsub_neg_neg (x y : Dy) : dsub (dneg x) (dneg y) = dneg (dsub x y) := by
  unfold dsub dneg
  dsimp only
  rw [show -x.m * 2 ^ (x.e - min x.e y.e).toNat - -y.m * 2 ^ (y.e - min x.e y.e).toNat
      = -(x.m * 2 ^ (x.e - min x.e y.e).toNat - y.m * 2 ^ (y.e - min x.e y.e).toNat) by ring]
  exact fl_neg _ _

theorem dmul_comm (x y : Dy) : dmul x y = dmul y x := by
  unfold dmul
  rw [Int.mul_comm x.m y.m, Int.add_comm x.e y.e]

theorem dmul_neg_right (x y : Dy) : dmul x (dneg y) = dneg (dmul x y) := by
  unfold dmul dneg
  rw [show x.m * -y.m = -(x.m * y.m) by ring]
  exact fl_neg _ _

theorem ddiv_neg_neg (x y : Dy) (hy : y.m ≠ 0) : ddiv (dneg x) (dneg y) = ddiv x y := by
  unfold ddiv dneg
  by_cases h0 : x.m = 0
  · simp [h0]
  · have h0' : ¬(-x.m = 0) := by simpa using h0
    simp only [h0, h0', if_false, Int.natAbs_neg]
    have hiff : (-x.m < 0 ↔ -y.m < 0) ↔ (x.m < 0 ↔ y.m < 0) := by
      constructor <;> intro h <;> omega
    by_cases hs : x.m < 0 ↔ y.m < 0
    · rw [if_pos hs, if_pos (hiff.mpr hs)]
    · rw [if_neg hs, if_neg (fun h => hs (hiff.mp h))]

theorem denomOf_swap (a1 a2 b1 b2 : Dy × Dy) :
    denomOf b1 b2 a1 a2 = dneg (denomOf a1 a2 b1 b2) := by
  unfold denomOf
  rw [dmul_comm (dsub a2.2 a1.2) (dsub b2.1 b1.1), dmul_comm (dsub a2.1 a1.1) (dsub b2.2 b1.2)]
  exact dsub_anti _ _

theorem uaOf_swap (a1 a2 b1 b2 : Dy × Dy) (h : (denomOf a1 a2 b1 b2).m ≠ 0) :
    uaOf b1 b2 a1 a2 = ubOf a1 a2 b1 b2 := by
  unfold uaOf ubOf
  rw [dsub_anti a1.2 b1.2, dmul_neg_right (dsub a2.1 a1.1) (dsub a1.2 b1.2),
    dsub_anti a1.1 b1.1, dmul_neg_right (dsub a2.2 a1.2) (dsub a1.1 b1.1),
    dsub_neg_neg, denomOf_swap a1 a2 b1 b2, ddiv_neg_neg _ _ h]

theorem ubOf_swap (a1 a2 b1 b2 : Dy × Dy) (h : (denomOf a1 a2 b1 b2).m ≠ 0) :
    ubOf b1 b2 a1 a2 = uaOf a1 a2 b1 b2 := by
  unfold uaOf ubOf
  rw [dsub_anti a1.2 b1.2, dmul_neg_right (dsub b2.1 b1.1) (dsub a1.2 b1.2),
    dsub_anti a1.1 b1.1, dmul_neg_right (dsub b2.2 b1.2) (dsub a1.1 b1.1),
    dsub_neg_neg, denomOf_swap a1 a2 b1 b2, ddiv_neg_neg _ _ h]

theorem dand_perm (a b c d : Bool) : (a && b && c && d) = (c && d && a && b) := by
  cases a <;> cases b <;> cases c <;> cases d <;> rfl

/-! ## Claim theorems -/

/-- C9, refuted on the code: in the binary64 arithmetic the source
actually computes in, the reversal identity fails.  At the integer
endpoints a1 = b1 = (17540494, 107564084), a2 = (132002213, 19886281),
b2 = (14390576, 40728909) — two segments sharing an endpoint — the
forward call returns true (its ua and ub are exactly 0), while the
fully reversed call returns false: its ub numerator and denominator
round differently, giving exactly 1 + 2^-52, just above 1. -/
theorem c9_reversal_fails_in_float_arithmetic :
    linesIntersect (⟨17540494, 0⟩, ⟨107564084, 0⟩) (⟨132002213, 0⟩, ⟨19886281, 0⟩)
        (⟨17540494, 0⟩, ⟨107564084, 0⟩) (⟨14390576, 0⟩, ⟨40728909, 0⟩) = true
      ∧ linesIntersect (⟨132002213, 0⟩, ⟨19886281, 0⟩) (⟨17540494, 0⟩, ⟨107564084, 0⟩)
        (⟨14390576, 0⟩, ⟨40728909, 0⟩) (⟨17540494, 0⟩, ⟨107564084, 0⟩) = false
      ∧ ubOf (⟨132002213, 0⟩, ⟨19886281, 0⟩) (⟨17540494, 0⟩, ⟨107564084, 0⟩)
        (⟨14390576, 0⟩, ⟨40728909, 0⟩) (⟨17540494, 0⟩, ⟨107564084, 0⟩)
        = ⟨4503599627370497, -52⟩ := by
  decide

/-- C9 amended: linesIntersect is symmetric under swapping the two
segments, linesIntersect(a1,a2,b1,b2) = linesIntersect(b1,b2,a1,a2),
even in binary64: every intermediate of the swapped call is an exact
negation or a commuted product of the original's, and IEEE rounding is
sign-symmetric.  The invariance under reversing both segments does not
survive rounding and is refuted by the counterexample. -/
theorem c9_amended_swap_symmetry (a1 a2 b1 b2 : Dy × Dy) :
    linesIntersect a1 a2 b1 b2 = linesIntersect b1 b2 a1 a2 := by
  unfold linesIntersect
  by_cases hD : (denomOf a1 a2 b1 b2).m = 0
  · have hD' : (denomOf b1 b2 a1 a2).m = 0 := by
      rw [denomOf_swap]; simp [dneg, hD]
    rw [if_pos hD, if_pos hD']
  · have hD' : ¬(denomOf b1 b2 a1 a2).m = 0 := by
      rw [denomOf_swap]; simpa [dneg] using hD
    rw [if_neg hD, if_neg hD', uaOf_swap a1 a2 b1 b2 hD, ubOf_swap a1 a2 b1 b2 hD]
    exact dand_perm _ _ _ _

/-- C1, refuted on the code: after the run of c1_final the pending queue
is empty and the contents and cursor tables of the live and shadow
replicas agree, yet the property tables differ — the live table still
holds the remote range at its server coordinates (2, 3) while the
shadow table holds it shifted to (3, 4), because the remote-property
handler clones the shadow table into the live one without re-applying
the remote op at rebased coordinates (the shifted coordinates it
computes are never used). -/
theorem c1_drained_queue_shadow_divergence :
    c1_final.builtup_inputs = []
      ∧ c1_final.live.content = c1_final.server.content
      ∧ c1_final.live.cursors = c1_final.server.cursors
      ∧ c1_final.live.properties = [("b", PropRanges.flagless [(2, 3)])]
      ∧ c1_final.server.properties = [("b", PropRanges.flagless [(3, 4)])]
      ∧ c1_final.live.properties ≠ c1_final.server.properties
      ∧ c1_final.crashed = false := by
  decide

/-- C3: the concrete rebase scenario of the claim, exactly as stated —
after the optimistic insert the live content is "aXbc" with the single
pending op add("X", 1); after the remote add_region("YY", 0) the shadow
content is "YYabc", the live content "YYaXbc", the pending op is rebased
to add("X", 3), and the local cursor sits at 6. -/
theorem c3_concurrent_insert_rebase_scenario :
    c3_mid.live.content = "aXbc"
      ∧ c3_mid.builtup_inputs = [PendingOp.add 1 "X"]
      ∧ c3_final.server.content = "YYabc"
      ∧ c3_final.live.content = "YYaXbc"
      ∧ c3_final.builtup_inputs = [PendingOp.add 3 "X"]
      ∧ (alist_get c3_final.live.cursors 1).map Cursor.position = some 6
      ∧ c3_final.crashed = false := by
  decide

/-- C4, refuted on the code: two toggle_property calls on a fresh
connected engine leave the property table holding the single range
(2, 0), whose start is not below its end — the right-touch case of the
merge scan stores a reversed range, violating the claimed invariant. -/
theorem c4_degenerate_range_stored :
    alist_get c4_final.live.properties "b" = some (PropRanges.flagless [(2, 0)])
      ∧ ¬((2 : Int) < 0)
      ∧ c4_final.crashed = false := by
  decide

/-- C2, refuted on the code for cursor_moved: in the run c2_final a
remote cursor_moved(2) for user 2 arrives while the local insert of "X"
at 1 is pending; the shadow cursor entry for user 2 is set to the
rebased position 3, not to the server-sent position 2. -/
theorem c2_shadow_cursor_rebased_not_server_sent :
    (alist_get c2_final.server.cursors 2).map Cursor.position = some 3
      ∧ (alist_get c2_final.server.cursors 2).map Cursor.position ≠ some 2
      ∧ c2_final.builtup_inputs = [PendingOp.add 1 "X"]
      ∧ c2_final.crashed = false := by
  decide

/-- C2 amended: the add_region, remove_region, add_property and
remove_property handlers do apply the event authoritatively to the
shadow replica, unconditionally and before any echo or rebase handling
(the shadow of the handler result equals the shadow after the
server-side primitive alone); but for a remote cursor_moved the shadow
cursor entry for userid is set to the position rebased through the local
pending queue, not to the raw server-sent position. -/
theorem c2_amended_authoritative_shadow_application (t : Editor) (text : String)
    (pos start stop : Int) (prop : String) (flag : Option String) (uid : Nat)
    (uname : String) (mid : Int) (choice : Nat) :
    (t.on_add_region text pos uid mid).server
        = ((t.set_last_mod_id mid).actual_add text pos true).server
      ∧ (t.on_remove_region start stop uid mid).server
        = ((t.set_last_mod_id mid).actual_remove start stop true).server
      ∧ (t.on_add_property start stop prop flag uid mid).server
        = ((t.set_last_mod_id mid).actual_add_property start stop prop flag true).server
      ∧ (t.on_remove_property start stop prop uid mid).server
        = ((t.set_last_mod_id mid).actual_remove_property start stop prop true).server
      ∧ (t.userid ≠ some uid →
          (alist_get (t.on_cursor_moved pos uid uname mid choice).server.cursors uid).map
              Cursor.position
            = some (rebase_cursor_position t.builtup_inputs pos)) :=
  ⟨server_on_add_region t text pos uid mid,
   server_on_remove_region t start stop uid mid,
   server_on_add_property t start stop prop flag uid mid,
   server_on_remove_property t start stop prop uid mid,
   fun h => server_cursor_on_cursor_moved t pos uid uname mid choice h⟩

/-- C2 amended, witness: the amended theorem applied to the concrete
engine c2_witness_state (pending insert of "X" at 1) and a cursor_moved
at 5 for the remote user 2, whose rebased position is 6. -/
theorem c2_amended_witness :
    (c2_witness_state.on_add_region "Q" 0 1 9).server
        = ((c2_witness_state.set_last_mod_id 9).actual_add "Q" 0 true).server
      ∧ (alist_get (c2_witness_state.on_cursor_moved 5 2 "bob" 9 0).server.cursors 2).map
            Cursor.position
        = some (rebase_cursor_position c2_witness_state.builtup_inputs 5) := by
  refine ⟨(c2_amended_authoritative_shadow_application c2_witness_state "Q" 0 0 0 "b" none
      1 "bob" 9 0).1, ?_⟩
  exact (c2_amended_authoritative_shadow_application c2_witness_state "Q" 5 0 0 "b" none
      2 "bob" 9 0).2.2.2.2 (by decide)

/-- C5, refuted on the code: adding [1, 3) to the bucket holding
[0, 1) and [3, 4) (unchanged by the clearing pass) rewrites BOTH
ranges — the scan is per-range, not a global if / else-if — producing
[(0, 3), (3, 1)], while the claimed rule would extend only the
left-touching range and produce [(0, 3), (3, 4)]. -/
theorem c5_merge_rule_counterexample :
    alist_get c5_before.properties "b" = some (PropRanges.flagless [(0, 1), (3, 4)])
      ∧ alist_get c5_after.properties "b" = some (PropRanges.flagless [(0, 3), (3, 1)])
      ∧ specMergeRule [(0, 1), (3, 4)] 1 3 = [(0, 3), (3, 4)]
      ∧ ([((0 : Int), (3 : Int)), (3, 1)] ≠ [((0 : Int), (3 : Int)), (3, 4)]) := by
  decide

/-- C5 amended: the merge scan of actual_add_property treats every range
independently — each range with R.end = start becomes (R.start, end),
each other range with R.start = end becomes (R.start, start), and the
new range is pushed exactly when no range matched either case. -/
theorem c5_amended_per_range_merge (start stop : Int) (rs : List (Int × Int)) :
    mergeStep start stop rs
      = rs.map (mergeRewrite start stop)
        ++ (if rs.any (mergeMatches start stop) then [] else [(start, stop)]) := by
  unfold mergeStep
  rw [mergeFold_foldl start stop rs [] false]
  cases h : rs.any (mergeMatches start stop) <;> simp [h]

/-- C6, refuted on the code: on a fresh non-read-only engine whose
userid is still undefined, the public remove(0, 0) is not a no-op — it
enqueues a pending op and emits a remove_region event (the source checks
only read_only, never whether the engine is connected). -/
theorem c6_uninitialised_remove_not_noop :
    (Editor.init false).read_only = false
      ∧ (Editor.init false).userid = none
      ∧ c6_final.builtup_inputs = [PendingOp.remove 0 0]
      ∧ c6_final.emitted = [OutEvent.remove_region 0 0 none] := by
  decide

/-- C6 amended: every public mutation operation is a no-op when
read_only is true; the undefined-userid case is not guarded. -/
theorem c6_amended_read_only_noop (t : Editor) (text : String) (p s e : Int)
    (prop : String) (flag : Option String) (h : t.read_only = true) :
    t.add text p = t ∧ t.remove s e = t ∧ t.move_cursor p = t
      ∧ t.toggle_property s e prop flag = t := by
  unfold Editor.add Editor.remove Editor.move_cursor Editor.toggle_property
  simp [h]

/-- C6 amended, witness: a read-only engine, on which add and remove
are no-ops. -/
theorem c6_amended_witness :
    (Editor.init true).read_only = true
      ∧ (Editor.init true).add "a" 0 = Editor.init true
      ∧ (Editor.init true).remove 0 0 = Editor.init true :=
  ⟨rfl,
   (c6_amended_read_only_noop (Editor.init true) "a" 0 0 0 "b" none rfl).1,
   (c6_amended_read_only_noop (Editor.init true) "a" 0 0 0 "b" none rfl).2.1⟩

/-- C7, refuted on the code: over the property table of c7_mid the
bucket of b holds the touching ranges [0, 10) and [10, 12); exactly one
existing range, [0, 10), fully covers [2, 10), yet toggle_property(2,
10, b) chooses add, because the overlap filter also counts the touching
range [10, 12) and then sees two overlapping ranges. -/
theorem c7_single_covering_range_yet_add :
    alist_get c7_mid.live.properties "b" = some (PropRanges.flagless [(0, 10), (10, 12)])
      ∧ ((togRanges c7_mid.live.properties "b" none).filter
            (fun r => decide (r.1 ≤ 2 ∧ 10 ≤ r.2))).length = 1
      ∧ toggle_action c7_mid.live.properties 2 10 "b" none = .add
      ∧ c7_final.builtup_inputs.getLast? = some (PendingOp.add_property 2 10 "b" none)
      ∧ c7_final.crashed = false := by
  decide

/-- C7 amended: the action is remove exactly when the code's overlap
filter (in which a range touching [start, stop) at either endpoint also
counts) returns a single range and that range fully covers
[start, stop). -/
theorem c7_amended_toggle_action_iff (ps : Properties) (start stop : Int)
    (property : String) (flag : Option String) :
    toggle_action ps start stop property flag = .remove ↔
      ∃ r, overlapping_ranges (togRanges ps property flag) start stop = [r]
        ∧ r.1 ≤ start ∧ stop ≤ r.2 := by
  unfold toggle_action
  cases hp : alist_get ps property with
  | none => simp [togRanges, hp, overlapping_ranges]
  | some pr =>
    cases hov : overlapping_ranges (togRanges ps property flag) start stop with
    | nil => simp [hov]
    | cons r rest =>
      cases rest with
      | nil =>
        by_cases hcov : r.1 ≤ start ∧ stop ≤ r.2
        · simp [hov, hcov]
        · simp only [hov]
          simp [hcov]
      | cons r2 rest2 => simp [hov]

/-- C8, refuted on the code for cursor echoes: in the run c8_final the
local user's pending head is remove(0, 1) while the server echoes
cursor_moved(2) — a mismatch in kind — and AFTER the assert detects it
the handler still writes position 2 into the shadow cursor table. -/
theorem c8_cursor_echo_mismatch_mutates_shadow :
    c8_mid.builtup_inputs.head? = some (PendingOp.remove 0 1)
      ∧ (alist_get c8_mid.server.cursors 1).map Cursor.position = some 0
      ∧ (alist_get c8_final.server.cursors 1).map Cursor.position = some 2
      ∧ c8_final.builtup_inputs = [] := by
  decide

/-- C8 amended: for the four region / property echoes a mismatch causes
no mutation beyond the authoritative shadow application and the head
pop that precede the check — the handler result is exactly that state
(the assert only logs); the cursor_moved echo is the exception
witnessed by the counterexample. -/
theorem c8_amended_region_property_mismatch_no_further_mutation
    (t : Editor) (uid : Nat) (mid : Int) (text : String) (pos s e : Int)
    (prop : String) (flag : Option String) (head : PendingOp) (rest : List PendingOp)
    (hu : t.userid = some uid) (hq : t.builtup_inputs = head :: rest) :
    (head ≠ PendingOp.add pos text →
        t.on_add_region text pos uid mid
          = { (t.set_last_mod_id mid).actual_add text pos true with builtup_inputs := rest })
      ∧ (head ≠ PendingOp.remove s e →
        t.on_remove_region s e uid mid
          = { (t.set_last_mod_id mid).actual_remove s e true with builtup_inputs := rest })
      ∧ (head ≠ PendingOp.add_property s e prop flag →
        t.on_add_property s e prop flag uid mid
          = { (t.set_last_mod_id mid).actual_add_property s e prop flag true with
              builtup_inputs := rest })
      ∧ (head ≠ PendingOp.remove_property s e prop →
        t.on_remove_property s e prop uid mid
          = { (t.set_last_mod_id mid).actual_remove_property s e prop true with
              builtup_inputs := rest }) := by
  refine ⟨fun _ => ?_, fun _ => ?_, fun _ => ?_, fun _ => ?_⟩
  · simp [Editor.on_add_region, Editor.set_last_mod_id, Editor.actual_add,
      Editor.apply_side, hu, hq]
  · simp [Editor.on_remove_region, Editor.set_last_mod_id, Editor.actual_remove,
      Editor.apply_side, hu, hq]
  · simp [Editor.on_add_property, Editor.set_last_mod_id, Editor.actual_add_property,
      Editor.apply_side, hu, hq]
  · simp [Editor.on_remove_property, Editor.set_last_mod_id, Editor.actual_remove_property,
      Editor.apply_side, hu, hq]

/-- C8 amended, witness: the engine c8_witness_state has queue head
cursor(2), which mismatches an echoed add_region("Q", 0) and an echoed
remove_region(0, 1); both handlers return exactly the authoritative
application with the head popped. -/
theorem c8_amended_witness :
    c8_witness_state.on_add_region "Q" 0 1 9
        = { (c8_witness_state.set_last_mod_id 9).actual_add "Q" 0 true with
            builtup_inputs := [] }
      ∧ c8_witness_state.on_remove_region 0 1 1 9
        = { (c8_witness_state.set_last_mod_id 9).actual_remove 0 1 true with
            builtup_inputs := [] } :=
  ⟨(c8_amended_region_property_mismatch_no_further_mutation c8_witness_state 1 9 "Q" 0 0 1
      "b" none (PendingOp.cursor 2) [] (by decide) (by decide)).1 (by decide),
   (c8_amended_region_property_mismatch_no_further_mutation c8_witness_state 1 9 "Q" 0 0 1
      "b" none (PendingOp.cursor 2) [] (by decide) (by decide)).2.1 (by decide)⟩

/-- C10, refuted on the code in its positive part: the scene c10_s3,
built by the draw and group handlers themselves, nests group g2 inside
group g1; ungroup(g2) finds the group (so there is no null dereference)
but the final area.removeChild throws, and the group is not removed —
contradicting the claim that when the group exists the handler moves its
children to the top level and removes it. -/
theorem c10_nested_group_ungroup_fails :
    c10_s1 = [Elem.path "p" "M 0 0 L 10 10"]
      ∧ group_handler c10_s1 "g2" ["p"]
        = some [Elem.group "g2" [Elem.path "p" "M 0 0 L 10 10"]]
      ∧ group_handler c10_s2 "g1" ["g2"]
        = some [Elem.group "g1" [Elem.group "g2" [Elem.path "p" "M 0 0 L 10 10"]]]
      ∧ (findInList c10_s3 "g2").isSome = true
      ∧ ungroup c10_s3 "g2" = .error .notFound := by
  refine ⟨?_, ?_, ?_, ?_, ?_⟩ <;>
    simp [c10_s1, c10_s2, c10_s3, on_draw, group_handler, ungroup, findInList,
      isTopLevel, removeTopLevel, Elem.eid, List.foldl]

/-- C10 amended: remove(id) and edit(id, d) are silent no-ops when no
element with the id exists; ungroup(group_id) dereferences null exactly
when no element with group_id exists; and when the element with
group_id is a TOP-LEVEL element, its children are moved to the top
level in order and the element is removed — when it exists only nested
inside a group, the handler instead throws during the final top-level
removal. -/
theorem c10_amended_guards (s : Scene) (q d gid : String) (g : Elem) :
    (findInList s q = none → on_remove s q = s ∧ on_edit s q d = s)
      ∧ (ungroup s gid = .error .nullDeref ↔ findInList s gid = none)
      ∧ (findInList s gid = some g → isTopLevel s gid = true →
          ungroup s gid = .ok (removeTopLevel s gid ++ g.childrenOf)) := by
  refine ⟨fun h => ⟨?_, ?_⟩, ?_, fun h1 h2 => ?_⟩
  · simp [on_remove, h]
  · simp [on_edit, h]
  · cases hf : findInList s gid with
    | none => simp [ungroup, hf]
    | some g' =>
      cases ht : isTopLevel s gid <;> simp [ungroup, hf, ht]
  · simp [ungroup, h1, h2]

/-- C10 amended, witness: on the scene holding the single top-level
group g with one path child, a remove of the absent id z is a no-op and
ungroup(g) succeeds, leaving the child at the top level. -/
theorem c10_amended_witness :
    on_remove [Elem.group "g" [Elem.path "p" "x"]] "z"
        = [Elem.group "g" [Elem.path "p" "x"]]
      ∧ ungroup [Elem.group "g" [Elem.path "p" "x"]] "g" = .ok [Elem.path "p" "x"] :=
  ⟨((c10_amended_guards [Elem.group "g" [Elem.path "p" "x"]] "z" "d" "g"
      (Elem.group "g" [Elem.path "p" "x"])).1
        (by simp [findInList])).1,
   (c10_amended_guards [Elem.group "g" [Elem.path "p" "x"]] "z" "d" "g"
      (Elem.group "g" [Elem.path "p" "x"])).2.2
        (by simp [findInList]) (by simp [isTopLevel, Elem.eid])⟩

end Collab
